import Mathlib

/-!
Shallow embedding of the DeviceFinance policy backend (src/app/models.py,
src/app/main.py, src/app/safety.py) and proofs about its claims.

Modelling conventions:
  - Python dicts keyed by serial number become association lists
    (`List (String × α)`) with first-match lookup, in-place update and
    first-occurrence deletion, matching CPython dict semantics
    (insertion order preserved, update keeps position).
  - `time.time()` floats become rationals; every operation that reads the
    clock takes the current time `now : ℚ` as an explicit argument.
  - `uuid.uuid4()` becomes an explicit `freshId : String` argument.
  - The Python `set` of processed transaction ids becomes a list used only
    through membership; insertion happens only when the id is absent
    (the duplicate check precedes it), so append is faithful.
  - HTTP exceptions become result constructors (`invalidTransition` for the
    409, `circuitOpen` for the 503, `none` for a 404).
-/

namespace DeviceFinance

/-- Device lifecycle states, from models.py `DeviceState`. -/
inductive DeviceState
  | PROVISIONING
  | ACTIVE
  | GRACE_PERIOD
  | SOFT_LOCKED
  | HARD_LOCKED
  | SUSPENDED
  | PAID_OFF
  | STOLEN_LOCKED
  | DECOMMISSIONED
deriving DecidableEq, Repr

/-- Event types, from models.py `EventType`. -/
inductive EventType
  | DPC_ENROLLED
  | PAYMENT_RECEIVED
  | PAYMENT_OVERDUE
  | PAYMENT_COMPLETED
  | GRACE_EXPIRED
  | ESCALATION_TIMEOUT
  | ADMIN_SUSPEND
  | ADMIN_REINSTATE
  | ADMIN_REPORT_STOLEN
  | ADMIN_RECOVER
  | ADMIN_DECOMMISSION
  | PROVISIONING_FAILED
deriving DecidableEq, Repr

/-- Command types, from models.py `CommandType`. -/
inductive CommandType
  | LOCK
  | UNLOCK
  | WIPE
  | SET_RESTRICTIONS
deriving DecidableEq, Repr

/-- The transition table, from models.py `VALID_TRANSITIONS` (a dict keyed by
`(state, event)` pairs, rendered as a function to `Option`). -/
def VALID_TRANSITIONS : DeviceState → EventType → Option DeviceState
  | .PROVISIONING, .DPC_ENROLLED => some .ACTIVE
  | .PROVISIONING, .PROVISIONING_FAILED => some .DECOMMISSIONED
  | .ACTIVE, .PAYMENT_OVERDUE => some .GRACE_PERIOD
  | .ACTIVE, .PAYMENT_COMPLETED => some .PAID_OFF
  | .ACTIVE, .ADMIN_SUSPEND => some .SUSPENDED
  | .ACTIVE, .ADMIN_REPORT_STOLEN => some .STOLEN_LOCKED
  | .GRACE_PERIOD, .PAYMENT_RECEIVED => some .ACTIVE
  | .GRACE_PERIOD, .GRACE_EXPIRED => some .SOFT_LOCKED
  | .SOFT_LOCKED, .PAYMENT_RECEIVED => some .ACTIVE
  | .SOFT_LOCKED, .ESCALATION_TIMEOUT => some .HARD_LOCKED
  | .HARD_LOCKED, .PAYMENT_RECEIVED => some .ACTIVE
  | .HARD_LOCKED, .ADMIN_SUSPEND => some .SUSPENDED
  | .HARD_LOCKED, .ADMIN_REPORT_STOLEN => some .STOLEN_LOCKED
  | .SUSPENDED, .ADMIN_REINSTATE => some .ACTIVE
  | .STOLEN_LOCKED, .ADMIN_RECOVER => some .SUSPENDED
  | _, _ => none

/-- Event payload, from models.py `EventPayload`. The unused free-form
`metadata` dict is omitted (handle_event never reads it). -/
structure EventPayload where
  serial_number : String
  event_type : EventType
  transaction_id : Option String := none
  actor : String := "system"
deriving DecidableEq, Repr

/-- Audit record, from models.py `AuditRecord`. -/
structure AuditRecord where
  serial_number : String
  from_state : DeviceState
  to_state : DeviceState
  event : EventType
  actor : String
  timestamp : ℚ
  transaction_id : Option String := none
deriving DecidableEq, Repr

/-- Command queue entry, from models.py `CommandEntry`. The `payload` field
holds the restrictions map of the entered state's policy template. -/
structure CommandEntry where
  id : String
  serial_number : String
  command : CommandType
  payload : List (String × Bool)
  created_at : ℚ
  acknowledged : Bool := false
deriving DecidableEq, Repr

/-- Per-state policy template, from main.py `POLICY_TEMPLATES` values. -/
structure PolicyTemplate where
  restrictions : List (String × Bool)
  lock_screen_message : String
  protected_packages : List String
deriving DecidableEq, Repr

/-- Policy response, from models.py `PolicyResponse`. -/
structure PolicyResponse where
  serial_number : String
  device_state : DeviceState
  restrictions : List (String × Bool)
  lock_screen_message : String
  protected_packages : List String
deriving DecidableEq, Repr

/-- The static per-state policy table, from main.py `POLICY_TEMPLATES`. -/
def POLICY_TEMPLATES : DeviceState → PolicyTemplate
  | .ACTIVE =>
      { restrictions := [("no_usb", false), ("no_camera", false), ("no_install_apps", false)],
        lock_screen_message := "",
        protected_packages := ["com.example.fintechapp"] }
  | .GRACE_PERIOD =>
      { restrictions := [("no_usb", false), ("no_camera", false), ("no_install_apps", false)],
        lock_screen_message := "Payment overdue. Please pay to avoid restrictions.",
        protected_packages := ["com.example.fintechapp"] }
  | .SOFT_LOCKED =>
      { restrictions := [("no_usb", true), ("no_camera", true), ("no_install_apps", true)],
        lock_screen_message := "Device restricted due to missed payment. Pay now to restore access.",
        protected_packages := ["com.example.fintechapp"] }
  | .HARD_LOCKED =>
      { restrictions := [("no_usb", true), ("no_camera", true), ("no_install_apps", true)],
        lock_screen_message := "Device locked. Contact support or make payment to unlock.",
        protected_packages := ["com.example.fintechapp"] }
  | .SUSPENDED =>
      { restrictions := [("no_usb", true), ("no_camera", true), ("no_install_apps", true)],
        lock_screen_message := "Device suspended. Contact support.",
        protected_packages := ["com.example.fintechapp"] }
  | .STOLEN_LOCKED =>
      { restrictions := [("no_usb", true), ("no_camera", true), ("no_install_apps", true)],
        lock_screen_message := "This device has been reported. Contact authorities.",
        protected_packages := ["com.example.fintechapp"] }
  | .PAID_OFF =>
      { restrictions := [("no_usb", false), ("no_camera", false), ("no_install_apps", false)],
        lock_screen_message := "",
        protected_packages := [] }
  | .PROVISIONING =>
      { restrictions := [("no_usb", true), ("no_camera", false), ("no_install_apps", true)],
        lock_screen_message := "Setup in progress.",
        protected_packages := ["com.example.fintechapp"] }
  | .DECOMMISSIONED =>
      { restrictions := [],
        lock_screen_message := "Device decommissioned.",
        protected_packages := [] }

/-- Map a device state to the command the DPC should execute, from main.py
`_state_to_command` (a dict lookup with `None` for missing keys and for the
explicit `GRACE_PERIOD: None` entry). -/
def state_to_command : DeviceState → Option CommandType
  | .ACTIVE => some .UNLOCK
  | .GRACE_PERIOD => none
  | .SOFT_LOCKED => some .LOCK
  | .HARD_LOCKED => some .LOCK
  | .SUSPENDED => some .LOCK
  | .STOLEN_LOCKED => some .LOCK
  | .PAID_OFF => some .UNLOCK
  | .DECOMMISSIONED => some .WIPE
  | .PROVISIONING => none

/-! Association-list operations modelling CPython dict behaviour. -/

/-- Dict lookup: first entry with the key. -/
def dictGet {α : Type} : List (String × α) → String → Option α
  | [], _ => none
  | (k2, v) :: rest, k => if k2 = k then some v else dictGet rest k

/-- Dict update or insert: update the first entry with the key in place,
otherwise append at the end (CPython `d[k] = v`). -/
def dictSet {α : Type} : List (String × α) → String → α → List (String × α)
  | [], k, v => [(k, v)]
  | (k2, v2) :: rest, k, v =>
      if k2 = k then (k, v) :: rest else (k2, v2) :: dictSet rest k v

/-- Dict deletion: remove the first entry with the key (CPython `del d[k]`). -/
def dictDel {α : Type} : List (String × α) → String → List (String × α)
  | [], _ => []
  | (k2, v2) :: rest, k => if k2 = k then rest else (k2, v2) :: dictDel rest k

/-! Circuit breaker, from safety.py `CircuitBreaker`. -/

/-- Breaker state; the Python field is the string "CLOSED" or "OPEN". -/
inductive BreakerState
  | CLOSED
  | OPEN
deriving DecidableEq, Repr

/-- Sliding-window circuit breaker, from safety.py `CircuitBreaker`. -/
structure CircuitBreaker where
  max_locks_in_window : ℕ := 50
  window_seconds : ℚ := 300
  cooldown_seconds : ℚ := 600
  lock_timestamps : List ℚ := []
  tripped_at : Option ℚ := none
  state : BreakerState := .CLOSED
deriving DecidableEq, Repr

/-- Manual reset, from `CircuitBreaker.reset`. -/
def reset (cb : CircuitBreaker) : CircuitBreaker :=
  { cb with state := .CLOSED, tripped_at := none, lock_timestamps := [] }

/-- Auto-reset check, from `CircuitBreaker._maybe_auto_reset`. -/
def maybe_auto_reset (now : ℚ) (cb : CircuitBreaker) : CircuitBreaker :=
  match cb.tripped_at with
  | none => cb
  | some ta =>
      if cb.state = .OPEN ∧ 0 < cb.cooldown_seconds ∧ cb.cooldown_seconds < now - ta then
        reset cb
      else cb

/-- Lock admission, from `CircuitBreaker.allow_lock`. The auto-reset it
performs mutates the breaker, so the updated breaker is returned too. -/
def allow_lock (now : ℚ) (cb : CircuitBreaker) : CircuitBreaker × Bool :=
  let cb2 := maybe_auto_reset now cb
  if cb2.state = .OPEN then (cb2, false) else (cb2, true)

/-- Trip, from `CircuitBreaker._trip`. -/
def trip (now : ℚ) (cb : CircuitBreaker) : CircuitBreaker :=
  { cb with state := .OPEN, tripped_at := some now }

/-- Record a lock, from `CircuitBreaker.record_lock`: append `now`, drop
timestamps at or before `now - window_seconds`, trip when the retained count
reaches the threshold. -/
def record_lock (now : ℚ) (cb : CircuitBreaker) : CircuitBreaker :=
  let ts := (cb.lock_timestamps ++ [now]).filter (fun t => decide (now - cb.window_seconds < t))
  let cb2 := { cb with lock_timestamps := ts }
  if cb2.max_locks_in_window ≤ ts.length then trip now cb2 else cb2

/-- Observation of the breaker state, from the `CircuitBreaker.state`
property (which first runs the auto-reset, mutating the breaker). -/
def state_property (now : ℚ) (cb : CircuitBreaker) : CircuitBreaker × BreakerState :=
  let cb2 := maybe_auto_reset now cb
  (cb2, cb2.state)

/-- The default breaker singleton, from safety.py `circuit_breaker`. -/
def circuit_breaker : CircuitBreaker := {}

/-! Server state: the in-memory stores of main.py. -/

/-- The module-level stores of main.py (`devices`, `audit_log`,
`command_queue`, `processed_txns`) plus the breaker singleton they interact
with. -/
structure ServerState where
  devices : List (String × DeviceState)
  audit_log : List AuditRecord
  command_queue : List CommandEntry
  processed_txns : List String
  breaker : CircuitBreaker
deriving DecidableEq, Repr

/-- Result of `handle_event`: the 200 bodies and the two HTTPException
outcomes (409 invalid transition, 503 circuit open). -/
inductive EventResult
  | duplicate (transaction_id : String)
  | transitioned (serial_number : String) (from_state to_state : DeviceState) (event : EventType)
  | invalidTransition (current : DeviceState) (event : EventType)
  | circuitOpen
deriving DecidableEq, Repr

/-- Truthiness of the optional transaction id, as Python evaluates
`payload.transaction_id` in a boolean context: `None` and the empty string
are falsy. -/
def txnTruthy : Option String → Bool
  | none => false
  | some s => decide (¬ s = "")

/-- Current state with the `PROVISIONING` default, from main.py line 128
`devices.get(sn, DeviceState.PROVISIONING)`. -/
def currentStateOf (st : ServerState) (sn : String) : DeviceState :=
  (dictGet st.devices sn).getD .PROVISIONING

/-- New-state decision, from main.py lines 130-144: `admin.decommission` is
valid from any state, every other event goes through the transition table. -/
def decideNewState (current : DeviceState) (ev : EventType) : Option DeviceState :=
  if ev = .ADMIN_DECOMMISSION then some .DECOMMISSIONED
  else VALID_TRANSITIONS current ev

/-- Commit phase of `handle_event` (main.py lines 159-201): write the state,
append the audit record, enqueue the command when the entered state maps to
one, and mark the transaction id processed when it is truthy. -/
def commitTransition (now : ℚ) (freshId : String) (payload : EventPayload)
    (current new_state : DeviceState) (st : ServerState) : ServerState × EventResult :=
  let sn := payload.serial_number
  let record : AuditRecord :=
    { serial_number := sn, from_state := current, to_state := new_state,
      event := payload.event_type, actor := payload.actor, timestamp := now,
      transaction_id := payload.transaction_id }
  let queue2 :=
    match state_to_command new_state with
    | none => st.command_queue
    | some cmd =>
        st.command_queue ++
          [{ id := freshId, serial_number := sn, command := cmd,
             payload := (POLICY_TEMPLATES new_state).restrictions,
             created_at := now, acknowledged := false }]
  let txns2 :=
    if txnTruthy payload.transaction_id then
      st.processed_txns ++ [payload.transaction_id.getD ""]
    else st.processed_txns
  ({ devices := dictSet st.devices sn new_state,
     audit_log := st.audit_log ++ [record],
     command_queue := queue2,
     processed_txns := txns2,
     breaker := st.breaker },
   .transitioned sn current new_state payload.event_type)

/-- The `POST /event` handler, from main.py `handle_event`: duplicate check,
transition decision, breaker gate for lock targets, then commit. -/
def handle_event (now : ℚ) (freshId : String) (payload : EventPayload)
    (st : ServerState) : ServerState × EventResult :=
  if txnTruthy payload.transaction_id = true ∧
      payload.transaction_id.getD "" ∈ st.processed_txns then
    (st, .duplicate (payload.transaction_id.getD ""))
  else
    match decideNewState (currentStateOf st payload.serial_number) payload.event_type with
    | none =>
        (st, .invalidTransition (currentStateOf st payload.serial_number) payload.event_type)
    | some new_state =>
        if new_state = .SOFT_LOCKED ∨ new_state = .HARD_LOCKED then
          if (allow_lock now st.breaker).2 = true then
            commitTransition now freshId payload (currentStateOf st payload.serial_number)
              new_state { st with breaker := record_lock now (allow_lock now st.breaker).1 }
          else
            ({ st with breaker := (allow_lock now st.breaker).1 }, .circuitOpen)
        else
          commitTransition now freshId payload (currentStateOf st payload.serial_number)
            new_state st

/-- The `GET /policy/{serial}` handler, from main.py `get_policy`; `none`
models the 404. -/
def get_policy (serial : String) (st : ServerState) : Option PolicyResponse :=
  match dictGet st.devices serial with
  | none => none
  | some s =>
      let template := POLICY_TEMPLATES s
      some { serial_number := serial, device_state := s,
             restrictions := template.restrictions,
             lock_screen_message := template.lock_screen_message,
             protected_packages := template.protected_packages }

/-- The `GET /audit/{serial}` handler, from main.py `get_audit`. -/
def get_audit (serial : String) (st : ServerState) : List AuditRecord :=
  st.audit_log.filter (fun r => decide (r.serial_number = serial))

/-- The `GET /commands/{serial}` handler, from main.py `get_commands`:
pending means not acknowledged. -/
def get_commands (serial : String) (st : ServerState) : List CommandEntry :=
  st.command_queue.filter
    (fun c => decide (c.serial_number = serial) && !c.acknowledged)

/-- The `DELETE /device/{serial}` handler, from main.py `delete_device`;
`none` models the 404, otherwise the new state and the two removal counts
are returned. -/
def delete_device (serial : String) (st : ServerState) :
    Option (ServerState × ℕ × ℕ) :=
  match dictGet st.devices serial with
  | none => none
  | some _ =>
      let removed_audit :=
        (st.audit_log.filter (fun r => decide (r.serial_number = serial))).length
      let removed_cmds :=
        (st.command_queue.filter (fun c => decide (c.serial_number = serial))).length
      some ({ devices := dictDel st.devices serial,
              audit_log := st.audit_log.filter (fun r => decide (¬ r.serial_number = serial)),
              command_queue := st.command_queue.filter (fun c => decide (¬ c.serial_number = serial)),
              processed_txns := st.processed_txns,
              breaker := st.breaker },
            removed_audit, removed_cmds)

/-- The states emptied by the emergency unlock, from main.py line 287. -/
def lockedStates : List DeviceState := [.SOFT_LOCKED, .HARD_LOCKED, .SUSPENDED]

/-- Per-device state update performed by the emergency-unlock loop. -/
def emergencyStateUpdate (s : DeviceState) : DeviceState :=
  if s ∈ lockedStates then .ACTIVE else s

/-- The `POST /admin/emergency-unlock` handler, from main.py
`emergency_unlock`: the loop over `devices.items()` sets every device in a
locked state to `ACTIVE` and appends one audit record per such device in
iteration order; afterwards the breaker is reset. Returns the new state and
the list of unlocked serials (`unlocked_count` is its length). -/
def emergency_unlock (reason : String) (now : ℚ) (st : ServerState) :
    ServerState × List String :=
  let targets := st.devices.filter (fun p => decide (p.2 ∈ lockedStates))
  let newRecords : List AuditRecord := targets.map (fun p =>
    { serial_number := p.1, from_state := p.2, to_state := .ACTIVE,
      event := .ADMIN_REINSTATE, actor := "emergency:" ++ reason,
      timestamp := now, transaction_id := none })
  ({ devices := st.devices.map (fun p => (p.1, emergencyStateUpdate p.2)),
     audit_log := st.audit_log ++ newRecords,
     command_queue := st.command_queue,
     processed_txns := st.processed_txns,
     breaker := reset st.breaker },
   targets.map (fun p => p.1))

/-! Canary rollout controller, from safety.py `CanaryRollout`. -/

/-- One rollout stage, from the dicts in `CanaryRollout.stages`. -/
structure Stage where
  name : String
  percent : ℕ
  observation_hours : ℕ
deriving DecidableEq, Repr

/-- Rollback reason: the formatted reason string of `_rollback` cites either
the error rate or the heartbeat loss together with its threshold; the
carried rationals are the rate and the threshold the string interpolates. -/
inductive RollbackReason
  | errorRate (rate threshold : ℚ)
  | heartbeatLoss (rate threshold : ℚ)
deriving DecidableEq, Repr

/-- Result of `evaluate_and_advance`, from the dicts it returns. -/
inductive CanaryResult
  | noActiveRollout
  | rolledBack (version stage : String) (reason : RollbackReason)
  | promoted (version stage : String) (percent : ℕ)
  | gaComplete (version : String)
deriving DecidableEq, Repr

/-- Rollout controller state, from safety.py `CanaryRollout`. -/
structure CanaryRollout where
  stages : List Stage := [
    { name := "CANARY", percent := 1, observation_hours := 24 },
    { name := "STAGED", percent := 10, observation_hours := 24 },
    { name := "BROAD", percent := 50, observation_hours := 12 },
    { name := "GA", percent := 100, observation_hours := 0 }]
  error_rate_threshold : ℚ := 2 / 100
  heartbeat_loss_threshold : ℚ := 5 / 100
  current_stage_index : ℕ := 0
  version : String := ""
  active : Bool := false
deriving DecidableEq, Repr

/-- Begin a rollout, from `CanaryRollout.start_rollout`. -/
def start_rollout (version : String) (c : CanaryRollout) :
    CanaryRollout × Stage :=
  let c2 := { c with version := version, current_stage_index := 0, active := true }
  (c2, c2.stages.getD 0 { name := "", percent := 0, observation_hours := 0 })

/-- Health evaluation, from `CanaryRollout.evaluate_and_advance`. -/
def evaluate_and_advance (error_rate heartbeat_loss_rate : ℚ)
    (c : CanaryRollout) : CanaryRollout × CanaryResult :=
  if c.active = false then (c, .noActiveRollout)
  else
    let stage := c.stages.getD c.current_stage_index
      { name := "", percent := 0, observation_hours := 0 }
    if c.error_rate_threshold ≤ error_rate then
      ({ c with active := false },
       .rolledBack c.version stage.name (.errorRate error_rate c.error_rate_threshold))
    else if c.heartbeat_loss_threshold ≤ heartbeat_loss_rate then
      ({ c with active := false },
       .rolledBack c.version stage.name
         (.heartbeatLoss heartbeat_loss_rate c.heartbeat_loss_threshold))
    else if c.current_stage_index < c.stages.length - 1 then
      let idx := c.current_stage_index + 1
      let next := c.stages.getD idx { name := "", percent := 0, observation_hours := 0 }
      ({ c with current_stage_index := idx },
       .promoted c.version next.name next.percent)
    else
      ({ c with active := false }, .gaComplete c.version)

/-- Failure outcomes of `handle_event`: the 409 and the 503. -/
def isFailure : EventResult → Bool
  | .invalidTransition _ _ => true
  | .circuitOpen => true
  | _ => false

/-! Concrete fixtures used to instantiate the theorems below. -/

/-- Fresh server start: empty stores, default breaker. -/
def exampleState : ServerState :=
  { devices := [], audit_log := [], command_queue := [], processed_txns := [],
    breaker := circuit_breaker }

/-- An enrollment event carrying transaction id T1. -/
def exampleEnroll : EventPayload :=
  { serial_number := "SN1", event_type := .DPC_ENROLLED, transaction_id := some "T1",
    actor := "dpc" }

/-- A decommission event for a different serial carrying the same id T1. -/
def exampleDecommission : EventPayload :=
  { serial_number := "SN2", event_type := .ADMIN_DECOMMISSION, transaction_id := some "T1",
    actor := "admin" }

/-- An event that is invalid from the PROVISIONING start state. -/
def exampleGraceExpired : EventPayload :=
  { serial_number := "SN1", event_type := .GRACE_EXPIRED }

/-- The repository left after enrolling SN1 from `exampleState` and then
deleting it: the device, its audit record and its command are gone but T1
stays in the processed set. -/
def exampleAfterDelete : ServerState :=
  { devices := [], audit_log := [], command_queue := [], processed_txns := ["T1"],
    breaker := circuit_breaker }

/-- A breaker that is OPEN with no cooldown elapsed at time 1. -/
def exampleOpenBreaker : CircuitBreaker := { tripped_at := some 0, state := .OPEN }

/-- A repository holding one device in GRACE_PERIOD behind an open breaker. -/
def exampleBlockedState : ServerState :=
  { devices := [("D1", .GRACE_PERIOD)], audit_log := [], command_queue := [],
    processed_txns := [], breaker := exampleOpenBreaker }

/-- A repository where T1 is processed and D1 sits in ACTIVE. -/
def exampleProcessedState : ServerState :=
  { devices := [("D1", .ACTIVE)], audit_log := [], command_queue := [],
    processed_txns := ["T1"], breaker := circuit_breaker }

/-- A grace-expired event for D1 carrying the already-processed id T1. -/
def exampleReplayGrace : EventPayload :=
  { serial_number := "D1", event_type := .GRACE_EXPIRED, transaction_id := some "T1" }

/-- A grace-expired event for D1 with no transaction id. -/
def exampleLockEvent : EventPayload :=
  { serial_number := "D1", event_type := .GRACE_EXPIRED }

/-- A mixed fleet: two locked devices, one active, one stolen, one
decommissioned. -/
def exampleFleet : ServerState :=
  { devices := [("A", .HARD_LOCKED), ("B", .ACTIVE), ("C", .SUSPENDED),
      ("D", .STOLEN_LOCKED), ("E", .DECOMMISSIONED)],
    audit_log := [], command_queue := [], processed_txns := [],
    breaker := exampleOpenBreaker }

/-- A breaker one lock away from its threshold. -/
def exampleTripBreaker : CircuitBreaker :=
  { max_locks_in_window := 1, window_seconds := 60 }

/-- A repository with D1 in GRACE_PERIOD behind the default closed breaker. -/
def exampleGraceState : ServerState :=
  { devices := [("D1", .GRACE_PERIOD)], audit_log := [], command_queue := [],
    processed_txns := [], breaker := circuit_breaker }

/-- An audit record for device A. -/
def exampleRecordA : AuditRecord :=
  { serial_number := "A", from_state := .PROVISIONING, to_state := .ACTIVE,
    event := .DPC_ENROLLED, actor := "system", timestamp := 0 }

/-- An audit record for device B. -/
def exampleRecordB : AuditRecord :=
  { serial_number := "B", from_state := .ACTIVE, to_state := .GRACE_PERIOD,
    event := .PAYMENT_OVERDUE, actor := "system", timestamp := 1 }

/-- A pending command for device A. -/
def exampleCommandA : CommandEntry :=
  { id := "c1", serial_number := "A", command := .UNLOCK,
    payload := (POLICY_TEMPLATES .ACTIVE).restrictions, created_at := 0 }

/-- A repository holding devices A and B with history for both. -/
def exampleAudited : ServerState :=
  { devices := [("A", .ACTIVE), ("B", .GRACE_PERIOD)],
    audit_log := [exampleRecordA, exampleRecordB],
    command_queue := [exampleCommandA], processed_txns := ["T9"],
    breaker := circuit_breaker }

/-- The repository left by deleting device A from `exampleAudited`. -/
def exampleDeleted : ServerState :=
  { devices := [("B", .GRACE_PERIOD)], audit_log := [exampleRecordB],
    command_queue := [], processed_txns := ["T9"], breaker := circuit_breaker }

/-! Helper lemmas: association-list facts. -/

theorem dictGet_eq_none_of_not_mem {α : Type} (l : List (String × α)) (k : String)
    (h : k ∉ l.map Prod.fst) : dictGet l k = none := by
  induction l with
  | nil => simp [dictGet]
  | cons hd tl ih =>
      obtain ⟨k2, v2⟩ := hd
      simp only [List.map_cons, List.mem_cons, not_or] at h
      simp [dictGet, Ne.symm h.1, ih h.2]

theorem dictGet_dictSet_self {α : Type} (l : List (String × α)) (k : String) (v : α) :
    dictGet (dictSet l k v) k = some v := by
  induction l with
  | nil => simp [dictGet, dictSet]
  | cons hd tl ih =>
      obtain ⟨k2, v2⟩ := hd
      by_cases h : k2 = k
      · simp [dictGet, dictSet, h]
      · simp [dictGet, dictSet, h, ih]

theorem dictGet_dictSet_ne {α : Type} (l : List (String × α)) (k k2 : String) (v : α)
    (h : k2 ≠ k) : dictGet (dictSet l k v) k2 = dictGet l k2 := by
  induction l with
  | nil => simp [dictGet, dictSet, Ne.symm h]
  | cons hd tl ih =>
      obtain ⟨k3, v3⟩ := hd
      by_cases h3 : k3 = k
      · subst h3
        simp [dictGet, dictSet, Ne.symm h]
      · simp only [dictSet, if_neg h3]
        by_cases h4 : k3 = k2
        · simp [dictGet, h4]
        · simp [dictGet, h4, ih]

theorem dictSet_keys {α : Type} (l : List (String × α)) (k : String) (v : α) :
    (dictSet l k v).map Prod.fst = if k ∈ l.map Prod.fst then l.map Prod.fst
      else l.map Prod.fst ++ [k] := by
  induction l with
  | nil => simp [dictSet]
  | cons hd tl ih =>
      obtain ⟨k2, v2⟩ := hd
      by_cases h : k2 = k
      · simp [dictSet, h]
      · simp only [dictSet, if_neg h, List.map_cons, List.mem_cons, ih]
        by_cases h2 : k ∈ tl.map Prod.fst
        · simp [h2, Ne.symm h]
        · simp [h2, Ne.symm h]

theorem dictSet_keys_nodup {α : Type} (l : List (String × α)) (k : String) (v : α)
    (h : (l.map Prod.fst).Nodup) : ((dictSet l k v).map Prod.fst).Nodup := by
  rw [dictSet_keys]
  by_cases hm : k ∈ l.map Prod.fst
  · simpa [hm]
  · simpa [hm, List.nodup_append] using h

theorem dictGet_dictDel_self {α : Type} (l : List (String × α)) (k : String)
    (h : (l.map Prod.fst).Nodup) : dictGet (dictDel l k) k = none := by
  induction l with
  | nil => simp [dictGet, dictDel]
  | cons hd tl ih =>
      obtain ⟨k2, v2⟩ := hd
      simp only [List.map_cons, List.nodup_cons] at h
      by_cases h2 : k2 = k
      · subst h2
        simp only [dictDel, if_pos rfl]
        exact dictGet_eq_none_of_not_mem tl k2 h.1
      · simp [dictDel, h2, dictGet, ih h.2]

theorem dictGet_dictDel_ne {α : Type} (l : List (String × α)) (k k2 : String)
    (h : k2 ≠ k) : dictGet (dictDel l k) k2 = dictGet l k2 := by
  induction l with
  | nil => simp [dictDel]
  | cons hd tl ih =>
      obtain ⟨k3, v3⟩ := hd
      by_cases h3 : k3 = k
      · subst h3
        simp [dictDel, dictGet, Ne.symm h]
      · by_cases h4 : k3 = k2
        · simp [dictDel, dictGet, h3, h4, h]
        · simp [dictDel, dictGet, h3, h4, ih]

theorem dictGet_map_val {α β : Type} (g : α → β) (l : List (String × α)) (k : String) :
    dictGet (l.map (fun p => (p.1, g p.2))) k = (dictGet l k).map g := by
  induction l with
  | nil => simp [dictGet]
  | cons hd tl ih =>
      obtain ⟨k2, v2⟩ := hd
      by_cases h : k2 = k
      · simp [dictGet, h]
      · simp [dictGet, h, ih]

theorem filter_key_nil {α : Type} (l : List (String × α)) (k : String)
    (h : k ∉ l.map Prod.fst) : l.filter (fun p => decide (p.1 = k)) = [] := by
  induction l with
  | nil => simp
  | cons hd tl ih =>
      obtain ⟨k2, v2⟩ := hd
      simp only [List.map_cons, List.mem_cons, not_or] at h
      simp [List.filter, Ne.symm h.1, ih h.2]

theorem filter_key_of_nodup {α : Type} (l : List (String × α)) (k : String) (v : α)
    (hn : (l.map Prod.fst).Nodup) (h : dictGet l k = some v) :
    l.filter (fun p => decide (p.1 = k)) = [(k, v)] := by
  induction l with
  | nil => simp [dictGet] at h
  | cons hd tl ih =>
      obtain ⟨k2, v2⟩ := hd
      simp only [List.map_cons, List.nodup_cons] at hn
      by_cases h2 : k2 = k
      · subst h2
        simp [dictGet] at h
        subst h
        simp [List.filter, filter_key_nil tl k2 hn.1]
      · simp only [dictGet, if_neg h2] at h
        simp [List.filter, h2, ih hn.2 h]

theorem filter_map_of_comp {α β : Type} (f : α → β) (q : β → Bool) (l : List α) :
    (l.map f).filter q = (l.filter (fun a => q (f a))).map f := by
  induction l with
  | nil => simp
  | cons hd tl ih =>
      by_cases h : q (f hd)
      · simp [List.filter, h, ih]
      · simp [List.filter, h, ih]

theorem filter_filter_comm {α : Type} (a b : α → Bool) (l : List α) :
    (l.filter a).filter b = (l.filter b).filter a := by
  induction l with
  | nil => simp
  | cons hd tl ih =>
      by_cases ha : a hd <;> by_cases hb : b hd <;>
        simp [List.filter, ha, hb, ih]

/-! Helper lemmas: the branch structure of `handle_event`. -/

theorem handle_event_dup (now : ℚ) (fid : String) (p : EventPayload) (st : ServerState)
    (h1 : txnTruthy p.transaction_id = true)
    (h2 : p.transaction_id.getD "" ∈ st.processed_txns) :
    handle_event now fid p st = (st, .duplicate (p.transaction_id.getD "")) := by
  unfold handle_event
  rw [if_pos ⟨h1, h2⟩]

theorem handle_event_invalid (now : ℚ) (fid : String) (p : EventPayload) (st : ServerState)
    (hdup : ¬ (txnTruthy p.transaction_id = true ∧ p.transaction_id.getD "" ∈ st.processed_txns))
    (hnone : decideNewState (currentStateOf st p.serial_number) p.event_type = none) :
    handle_event now fid p st =
      (st, .invalidTransition (currentStateOf st p.serial_number) p.event_type) := by
  unfold handle_event
  rw [if_neg hdup, hnone]

theorem handle_event_commit_nolock (now : ℚ) (fid : String) (p : EventPayload)
    (st : ServerState) (t : DeviceState)
    (hdup : ¬ (txnTruthy p.transaction_id = true ∧ p.transaction_id.getD "" ∈ st.processed_txns))
    (hsome : decideNewState (currentStateOf st p.serial_number) p.event_type = some t)
    (hnl : ¬ (t = .SOFT_LOCKED ∨ t = .HARD_LOCKED)) :
    handle_event now fid p st =
      commitTransition now fid p (currentStateOf st p.serial_number) t st := by
  unfold handle_event
  rw [if_neg hdup, hsome]
  simp only [if_neg hnl]

theorem handle_event_commit_lock (now : ℚ) (fid : String) (p : EventPayload)
    (st : ServerState) (t : DeviceState)
    (hdup : ¬ (txnTruthy p.transaction_id = true ∧ p.transaction_id.getD "" ∈ st.processed_txns))
    (hsome : decideNewState (currentStateOf st p.serial_number) p.event_type = some t)
    (hl : t = .SOFT_LOCKED ∨ t = .HARD_LOCKED)
    (hallow : (allow_lock now st.breaker).2 = true) :
    handle_event now fid p st =
      commitTransition now fid p (currentStateOf st p.serial_number) t
        { st with breaker := record_lock now (allow_lock now st.breaker).1 } := by
  unfold handle_event
  rw [if_neg hdup, hsome]
  simp only [if_pos hl, hallow, if_pos]

theorem handle_event_blocked (now : ℚ) (fid : String) (p : EventPayload)
    (st : ServerState) (t : DeviceState)
    (hdup : ¬ (txnTruthy p.transaction_id = true ∧ p.transaction_id.getD "" ∈ st.processed_txns))
    (hsome : decideNewState (currentStateOf st p.serial_number) p.event_type = some t)
    (hl : t = .SOFT_LOCKED ∨ t = .HARD_LOCKED)
    (hdeny : (allow_lock now st.breaker).2 = false) :
    handle_event now fid p st =
      ({ st with breaker := (allow_lock now st.breaker).1 }, .circuitOpen) := by
  unfold handle_event
  rw [if_neg hdup, hsome]
  simp only [if_pos hl, hdeny]
  simp

theorem commitTransition_snd (now : ℚ) (fid : String) (p : EventPayload)
    (current t : DeviceState) (st : ServerState) :
    (commitTransition now fid p current t st).2 =
      .transitioned p.serial_number current t p.event_type := rfl

/-- On a successful transition with a truthy transaction id, the id is
appended to the processed set. -/
theorem processed_after_transition (now : ℚ) (fid : String) (p : EventPayload)
    (st : ServerState) (sn : String) (a b : DeviceState) (ev : EventType)
    (h : (handle_event now fid p st).2 = .transitioned sn a b ev)
    (htr : txnTruthy p.transaction_id = true) :
    (handle_event now fid p st).1.processed_txns =
      st.processed_txns ++ [p.transaction_id.getD ""] := by
  by_cases hdup : txnTruthy p.transaction_id = true ∧
      p.transaction_id.getD "" ∈ st.processed_txns
  · rw [handle_event_dup now fid p st hdup.1 hdup.2] at h
    simp at h
  · cases hds : decideNewState (currentStateOf st p.serial_number) p.event_type with
    | none =>
        rw [handle_event_invalid now fid p st hdup hds] at h
        simp at h
    | some t =>
        by_cases hl : t = .SOFT_LOCKED ∨ t = .HARD_LOCKED
        · cases hal : (allow_lock now st.breaker).2 with
          | false =>
              rw [handle_event_blocked now fid p st t hdup hds hl hal] at h
              simp at h
          | true =>
              rw [handle_event_commit_lock now fid p st t hdup hds hl hal]
              simp [commitTransition, htr]
        · rw [handle_event_commit_nolock now fid p st t hdup hds hl]
          simp [commitTransition, htr]

/-- Outside the duplicate branch, the result is never `duplicate`. -/
theorem result_not_duplicate (now : ℚ) (fid : String) (p : EventPayload)
    (st : ServerState)
    (hdup : ¬ (txnTruthy p.transaction_id = true ∧ p.transaction_id.getD "" ∈ st.processed_txns))
    (x : String) : (handle_event now fid p st).2 ≠ .duplicate x := by
  cases hds : decideNewState (currentStateOf st p.serial_number) p.event_type with
  | none =>
      rw [handle_event_invalid now fid p st hdup hds]
      simp
  | some t =>
      by_cases hl : t = .SOFT_LOCKED ∨ t = .HARD_LOCKED
      · cases hal : (allow_lock now st.breaker).2 with
        | false =>
            rw [handle_event_blocked now fid p st t hdup hds hl hal]
            simp
        | true =>
            rw [handle_event_commit_lock now fid p st t hdup hds hl hal]
            simp [commitTransition]
      · rw [handle_event_commit_nolock now fid p st t hdup hds hl]
        simp [commitTransition]

/-- No row of the transition table is keyed by `admin.decommission`; it is
handled by the wildcard in the engine. -/
theorem VALID_TRANSITIONS_decommission (s : DeviceState) :
    VALID_TRANSITIONS s .ADMIN_DECOMMISSION = none := by
  cases s <;> rfl

/-- Characterization of the engine's new-state decision (some case). -/
theorem decideNewState_eq_some (cur : DeviceState) (ev : EventType) (t : DeviceState) :
    decideNewState cur ev = some t ↔
      (VALID_TRANSITIONS cur ev = some t ∨ (ev = .ADMIN_DECOMMISSION ∧ t = .DECOMMISSIONED)) := by
  by_cases h : ev = .ADMIN_DECOMMISSION
  · subst h
    simp [decideNewState, VALID_TRANSITIONS_decommission, eq_comm]
  · simp [decideNewState, h]

/-- Characterization of the engine's new-state decision (none case). -/
theorem decideNewState_eq_none (cur : DeviceState) (ev : EventType) :
    decideNewState cur ev = none ↔
      (VALID_TRANSITIONS cur ev = none ∧ ev ≠ .ADMIN_DECOMMISSION) := by
  by_cases h : ev = .ADMIN_DECOMMISSION
  · subst h
    simp [decideNewState]
  · simp [decideNewState, h]

/-- The devices written by the commit phase. -/
theorem commitTransition_devices (now : ℚ) (fid : String) (p : EventPayload)
    (current t : DeviceState) (st : ServerState) :
    (commitTransition now fid p current t st).1.devices =
      dictSet st.devices p.serial_number t := rfl

/-- Key-uniqueness of the device store is preserved by event handling. -/
theorem handle_event_keys_nodup (now : ℚ) (fid : String) (p : EventPayload)
    (st : ServerState) (hn : (st.devices.map Prod.fst).Nodup) :
    (((handle_event now fid p st).1.devices).map Prod.fst).Nodup := by
  by_cases hdup : txnTruthy p.transaction_id = true ∧
      p.transaction_id.getD "" ∈ st.processed_txns
  · rw [handle_event_dup now fid p st hdup.1 hdup.2]
    exact hn
  · cases hds : decideNewState (currentStateOf st p.serial_number) p.event_type with
    | none =>
        rw [handle_event_invalid now fid p st hdup hds]
        exact hn
    | some t =>
        by_cases hl : t = .SOFT_LOCKED ∨ t = .HARD_LOCKED
        · cases hal : (allow_lock now st.breaker).2 with
          | false =>
              rw [handle_event_blocked now fid p st t hdup hds hl hal]
              exact hn
          | true =>
              rw [handle_event_commit_lock now fid p st t hdup hds hl hal,
                commitTransition_devices]
              exact dictSet_keys_nodup st.devices p.serial_number t hn
        · rw [handle_event_commit_nolock now fid p st t hdup hds hl,
            commitTransition_devices]
          exact dictSet_keys_nodup st.devices p.serial_number t hn

/-- Claim C2: once an event with a non-empty transaction id T has been
applied with the Transitioned result, a second application of any payload
carrying the same T returns the Duplicate result and leaves the repository
contents (device states, audit log, command queue, processed-transaction
set) exactly as they were after the first application. -/
theorem C2_idempotent_replay (now1 now2 : ℚ) (id1 id2 : String)
    (p1 p2 : EventPayload) (st : ServerState) (T : String)
    (hT : T ≠ "") (hp1 : p1.transaction_id = some T) (hp2 : p2.transaction_id = some T)
    (sn : String) (a b : DeviceState) (ev : EventType)
    (h1 : (handle_event now1 id1 p1 st).2 = .transitioned sn a b ev) :
    handle_event now2 id2 p2 (handle_event now1 id1 p1 st).1 =
      ((handle_event now1 id1 p1 st).1, .duplicate T) := by
  have htr1 : txnTruthy p1.transaction_id = true := by simp [hp1, txnTruthy, hT]
  have hmem : T ∈ (handle_event now1 id1 p1 st).1.processed_txns := by
    rw [processed_after_transition now1 id1 p1 st sn a b ev h1 htr1]
    simp [hp1]
  have htr2 : txnTruthy p2.transaction_id = true := by simp [hp2, txnTruthy, hT]
  have hd := handle_event_dup now2 id2 p2 (handle_event now1 id1 p1 st).1 htr2
    (by rw [hp2]; simpa using hmem)
  rw [hd, hp2]
  simp

/-- Claim C3: when `handle_event` fails (invalid transition or circuit
open), the device store, audit log, command queue and processed-transaction
set are unchanged, and a later retry of the same payload is not treated as
a duplicate. -/
theorem C3_failure_frame (now : ℚ) (fid : String) (p : EventPayload) (st : ServerState)
    (h : isFailure (handle_event now fid p st).2 = true) :
    (handle_event now fid p st).1.devices = st.devices
  ∧ (handle_event now fid p st).1.audit_log = st.audit_log
  ∧ (handle_event now fid p st).1.command_queue = st.command_queue
  ∧ (handle_event now fid p st).1.processed_txns = st.processed_txns
  ∧ ∀ now2 fid2 x, (handle_event now2 fid2 p (handle_event now fid p st).1).2 ≠
      .duplicate x := by
  by_cases hdup : txnTruthy p.transaction_id = true ∧
      p.transaction_id.getD "" ∈ st.processed_txns
  · rw [handle_event_dup now fid p st hdup.1 hdup.2] at h
    simp [isFailure] at h
  · have frame : (handle_event now fid p st).1.devices = st.devices
        ∧ (handle_event now fid p st).1.audit_log = st.audit_log
        ∧ (handle_event now fid p st).1.command_queue = st.command_queue
        ∧ (handle_event now fid p st).1.processed_txns = st.processed_txns := by
      cases hds : decideNewState (currentStateOf st p.serial_number) p.event_type with
      | none =>
          rw [handle_event_invalid now fid p st hdup hds]
          simp
      | some t =>
          by_cases hl : t = .SOFT_LOCKED ∨ t = .HARD_LOCKED
          · cases hal : (allow_lock now st.breaker).2 with
            | false =>
                rw [handle_event_blocked now fid p st t hdup hds hl hal]
                simp
            | true =>
                rw [handle_event_commit_lock now fid p st t hdup hds hl hal,
                  commitTransition_snd] at h
                simp [isFailure] at h
          · rw [handle_event_commit_nolock now fid p st t hdup hds hl,
              commitTransition_snd] at h
            simp [isFailure] at h
    refine ⟨frame.1, frame.2.1, frame.2.2.1, frame.2.2.2, ?_⟩
    intro now2 fid2 x
    apply result_not_duplicate
    rw [frame.2.2.2]
    exact hdup

/-- Claim C9: transaction ids are globally scoped, so after a Transitioned
application with id T, any payload carrying T (any serial, any event) gets
the Duplicate result and the state of its target device is untouched. -/
theorem C9_txn_globally_scoped (now1 now2 : ℚ) (id1 id2 : String)
    (p1 p2 : EventPayload) (st : ServerState) (T : String)
    (hT : T ≠ "") (hp1 : p1.transaction_id = some T) (hp2 : p2.transaction_id = some T)
    (sn : String) (a b : DeviceState) (ev : EventType)
    (h1 : (handle_event now1 id1 p1 st).2 = .transitioned sn a b ev) :
    (handle_event now2 id2 p2 (handle_event now1 id1 p1 st).1).2 = .duplicate T
  ∧ dictGet (handle_event now2 id2 p2 (handle_event now1 id1 p1 st).1).1.devices
      p2.serial_number =
    dictGet (handle_event now1 id1 p1 st).1.devices p2.serial_number := by
  have htr1 : txnTruthy p1.transaction_id = true := by simp [hp1, txnTruthy, hT]
  have hmem : T ∈ (handle_event now1 id1 p1 st).1.processed_txns := by
    rw [processed_after_transition now1 id1 p1 st sn a b ev h1 htr1]
    simp [hp1]
  have htr2 : txnTruthy p2.transaction_id = true := by simp [hp2, txnTruthy, hT]
  have hd := handle_event_dup now2 id2 p2 (handle_event now1 id1 p1 st).1 htr2
    (by rw [hp2]; simpa using hmem)
  rw [hd, hp2]
  simp

/-- Claim C10: deleting a device does not touch the processed-transaction
set, so replaying the creating event after the deletion is answered with
Duplicate and does not re-create the device. -/
theorem C10_delete_then_replay (now1 now2 : ℚ) (id1 id2 : String) (p : EventPayload)
    (st : ServerState) (T : String) (hT : T ≠ "") (ht : p.transaction_id = some T)
    (sn : String) (a b : DeviceState) (ev : EventType)
    (h1 : (handle_event now1 id1 p st).2 = .transitioned sn a b ev)
    (hn : (st.devices.map Prod.fst).Nodup)
    (st' : ServerState) (ra rc : ℕ)
    (hdel : delete_device p.serial_number (handle_event now1 id1 p st).1 =
      some (st', ra, rc)) :
    st'.processed_txns = (handle_event now1 id1 p st).1.processed_txns
  ∧ handle_event now2 id2 p st' = (st', .duplicate T)
  ∧ dictGet (handle_event now2 id2 p st').1.devices p.serial_number = none := by
  have hshape : st'.processed_txns = (handle_event now1 id1 p st).1.processed_txns
      ∧ st'.devices = dictDel (handle_event now1 id1 p st).1.devices p.serial_number := by
    unfold delete_device at hdel
    cases hg : dictGet (handle_event now1 id1 p st).1.devices p.serial_number with
    | none => rw [hg] at hdel; simp at hdel
    | some s =>
        rw [hg] at hdel
        simp only [Option.some.injEq, Prod.mk.injEq] at hdel
        rw [← hdel.1]
        exact ⟨rfl, rfl⟩
  have htr : txnTruthy p.transaction_id = true := by simp [ht, txnTruthy, hT]
  have hmem1 : T ∈ (handle_event now1 id1 p st).1.processed_txns := by
    rw [processed_after_transition now1 id1 p st sn a b ev h1 htr]
    simp [ht]
  have hmem : T ∈ st'.processed_txns := by rw [hshape.1]; exact hmem1
  have hd := handle_event_dup now2 id2 p st' htr (by rw [ht]; simpa using hmem)
  have hnone : dictGet st'.devices p.serial_number = none := by
    rw [hshape.2]
    exact dictGet_dictDel_self _ _ (handle_event_keys_nodup now1 id1 p st hn)
  refine ⟨hshape.1, ?_, ?_⟩
  · rw [hd, ht]
    simp
  · rw [hd]
    exact hnone

/-- Witness for C2 at a concrete input: enrolling SN1 with id T1 and then
replaying T1 yields Duplicate and the unchanged repository. -/
theorem C2_idempotent_replay_witness :
    handle_event 1 "cmd-b" exampleEnroll
        (handle_event 0 "cmd-a" exampleEnroll exampleState).1 =
      ((handle_event 0 "cmd-a" exampleEnroll exampleState).1, .duplicate "T1") :=
  C2_idempotent_replay 0 1 "cmd-a" "cmd-b" exampleEnroll exampleEnroll exampleState "T1"
    (by decide) rfl rfl "SN1" .PROVISIONING .ACTIVE .DPC_ENROLLED
    (by simp [handle_event, exampleEnroll, exampleState, txnTruthy, currentStateOf,
      dictGet, decideNewState, VALID_TRANSITIONS, commitTransition, state_to_command])

/-- Witness for C3 at a concrete input: grace.expired on a fresh serial is
an invalid transition and leaves the empty repository unchanged. -/
theorem C3_failure_frame_witness :
    (handle_event 0 "cmd-a" exampleGraceExpired exampleState).1.devices =
        exampleState.devices
  ∧ (handle_event 0 "cmd-a" exampleGraceExpired exampleState).1.audit_log =
        exampleState.audit_log
  ∧ (handle_event 0 "cmd-a" exampleGraceExpired exampleState).1.command_queue =
        exampleState.command_queue
  ∧ (handle_event 0 "cmd-a" exampleGraceExpired exampleState).1.processed_txns =
        exampleState.processed_txns
  ∧ ∀ now2 fid2 x,
      (handle_event now2 fid2 exampleGraceExpired
        (handle_event 0 "cmd-a" exampleGraceExpired exampleState).1).2 ≠ .duplicate x :=
  C3_failure_frame 0 "cmd-a" exampleGraceExpired exampleState
    (by simp [handle_event, exampleGraceExpired, exampleState, txnTruthy, currentStateOf,
      dictGet, decideNewState, VALID_TRANSITIONS, isFailure])

/-- Witness for C9 at a concrete input: after enrolling SN1 with id T1, a
decommission of the different serial SN2 carrying T1 is answered with
Duplicate and SN2 stays absent. -/
theorem C9_txn_globally_scoped_witness :
    (handle_event 1 "cmd-b" exampleDecommission
        (handle_event 0 "cmd-a" exampleEnroll exampleState).1).2 = .duplicate "T1"
  ∧ dictGet (handle_event 1 "cmd-b" exampleDecommission
        (handle_event 0 "cmd-a" exampleEnroll exampleState).1).1.devices
      exampleDecommission.serial_number =
    dictGet (handle_event 0 "cmd-a" exampleEnroll exampleState).1.devices
      exampleDecommission.serial_number :=
  C9_txn_globally_scoped 0 1 "cmd-a" "cmd-b" exampleEnroll exampleDecommission
    exampleState "T1" (by decide) rfl rfl "SN1" .PROVISIONING .ACTIVE .DPC_ENROLLED
    (by simp [handle_event, exampleEnroll, exampleState, txnTruthy, currentStateOf,
      dictGet, decideNewState, VALID_TRANSITIONS, commitTransition, state_to_command])

/-- Witness for C10 at a concrete input: enroll SN1 with id T1, delete SN1,
then replay the enrollment; the replay is Duplicate and SN1 is not
re-created. -/
theorem C10_delete_then_replay_witness :
    exampleAfterDelete.processed_txns =
        (handle_event 0 "cmd-a" exampleEnroll exampleState).1.processed_txns
  ∧ handle_event 5 "cmd-b" exampleEnroll exampleAfterDelete =
        (exampleAfterDelete, .duplicate "T1")
  ∧ dictGet (handle_event 5 "cmd-b" exampleEnroll exampleAfterDelete).1.devices
        exampleEnroll.serial_number = none :=
  C10_delete_then_replay 0 5 "cmd-a" "cmd-b" exampleEnroll exampleState "T1"
    (by decide) rfl "SN1" .PROVISIONING .ACTIVE .DPC_ENROLLED
    (by simp [handle_event, exampleEnroll, exampleState, txnTruthy, currentStateOf,
      dictGet, decideNewState, VALID_TRANSITIONS, commitTransition, state_to_command])
    (by simp [exampleState])
    exampleAfterDelete 1 1
    (by simp [delete_device, handle_event, exampleEnroll, exampleState, exampleAfterDelete,
      txnTruthy, currentStateOf, dictGet, decideNewState, VALID_TRANSITIONS,
      commitTransition, state_to_command, dictSet, dictDel])

/-- Counterexample for C1 as frozen. First half: with the breaker OPEN and
no cooldown elapsed, `(GRACE_PERIOD, grace.expired)` is in the transition
table yet the call fails with CircuitOpen instead of succeeding. Second
half: with the payload's transaction id already processed, an invalid pair
is answered with Duplicate, not with InvalidTransition. -/
theorem C1_counterexample :
    (VALID_TRANSITIONS .GRACE_PERIOD .GRACE_EXPIRED = some .SOFT_LOCKED
      ∧ (handle_event 1 "cmd-a" exampleLockEvent exampleBlockedState).2 = .circuitOpen)
  ∧ (VALID_TRANSITIONS .ACTIVE .GRACE_EXPIRED = none
      ∧ exampleReplayGrace.event_type ≠ .ADMIN_DECOMMISSION
      ∧ (handle_event 1 "cmd-a" exampleReplayGrace exampleProcessedState).2 =
          .duplicate "T1") := by
  refine ⟨⟨by decide, ?_⟩, by decide, by decide, ?_⟩
  · simp [handle_event, exampleLockEvent, exampleBlockedState, exampleOpenBreaker,
      txnTruthy, currentStateOf, dictGet, decideNewState, VALID_TRANSITIONS,
      allow_lock, maybe_auto_reset, reset]
  · simp [handle_event, exampleReplayGrace, exampleProcessedState, txnTruthy]

/-- Claim C1 (amended): provided the payload's transaction id is not an
already-processed duplicate and the circuit breaker admits lock
transitions, the event succeeds with new state t iff either the transition
table maps (current, event) to t — the current state of an unknown serial
being PROVISIONING — or the event is admin.decommission and t is
DECOMMISSIONED; it fails with InvalidTransition exactly when the pair is
not in the table and the event is not admin.decommission; and every stored
state lies in the nine-value DeviceState enumeration. -/
theorem C1_transition_totality (now : ℚ) (fid : String) (p : EventPayload)
    (st : ServerState)
    (hdup : ¬ (txnTruthy p.transaction_id = true ∧ p.transaction_id.getD "" ∈ st.processed_txns))
    (hallow : (allow_lock now st.breaker).2 = true) :
    (∀ t : DeviceState,
      (handle_event now fid p st).2 =
          .transitioned p.serial_number (currentStateOf st p.serial_number) t p.event_type
        ↔ (VALID_TRANSITIONS (currentStateOf st p.serial_number) p.event_type = some t
            ∨ (p.event_type = .ADMIN_DECOMMISSION ∧ t = .DECOMMISSIONED)))
  ∧ ((handle_event now fid p st).2 =
        .invalidTransition (currentStateOf st p.serial_number) p.event_type
      ↔ (VALID_TRANSITIONS (currentStateOf st p.serial_number) p.event_type = none
          ∧ p.event_type ≠ .ADMIN_DECOMMISSION))
  ∧ (∀ sn s, dictGet (handle_event now fid p st).1.devices sn = some s →
      s ∈ [DeviceState.PROVISIONING, .ACTIVE, .GRACE_PERIOD, .SOFT_LOCKED, .HARD_LOCKED,
        .SUSPENDED, .PAID_OFF, .STOLEN_LOCKED, .DECOMMISSIONED]) := by
  refine ⟨?_, ?_, ?_⟩
  · intro t
    cases hds : decideNewState (currentStateOf st p.serial_number) p.event_type with
    | none =>
        rw [handle_event_invalid now fid p st hdup hds]
        simp only
        constructor
        · intro h
          simp at h
        · intro h
          have : decideNewState (currentStateOf st p.serial_number) p.event_type = some t :=
            (decideNewState_eq_some _ _ _).mpr h
          rw [hds] at this
          simp at this
    | some t0 =>
        have hres : (handle_event now fid p st).2 =
            .transitioned p.serial_number (currentStateOf st p.serial_number) t0
              p.event_type := by
          by_cases hl : t0 = .SOFT_LOCKED ∨ t0 = .HARD_LOCKED
          · rw [handle_event_commit_lock now fid p st t0 hdup hds hl hallow,
              commitTransition_snd]
          · rw [handle_event_commit_nolock now fid p st t0 hdup hds hl,
              commitTransition_snd]
        rw [hres]
        constructor
        · intro h
          simp only [EventResult.transitioned.injEq] at h
          rw [← decideNewState_eq_some, ← h.2.2.1]
          exact hds
        · intro h
          have : decideNewState (currentStateOf st p.serial_number) p.event_type = some t :=
            (decideNewState_eq_some _ _ _).mpr h
          rw [hds] at this
          simp only [Option.some.injEq] at this
          rw [this]
  · cases hds : decideNewState (currentStateOf st p.serial_number) p.event_type with
    | none =>
        rw [handle_event_invalid now fid p st hdup hds]
        simp only
        constructor
        · intro _
          exact (decideNewState_eq_none _ _).mp hds
        · intro _
          trivial
    | some t0 =>
        have hres : (handle_event now fid p st).2 =
            .transitioned p.serial_number (currentStateOf st p.serial_number) t0
              p.event_type := by
          by_cases hl : t0 = .SOFT_LOCKED ∨ t0 = .HARD_LOCKED
          · rw [handle_event_commit_lock now fid p st t0 hdup hds hl hallow,
              commitTransition_snd]
          · rw [handle_event_commit_nolock now fid p st t0 hdup hds hl,
              commitTransition_snd]
        rw [hres]
        constructor
        · intro h
          simp at h
        · intro h
          have : decideNewState (currentStateOf st p.serial_number) p.event_type = none :=
            (decideNewState_eq_none _ _).mpr h
          rw [hds] at this
          simp at this
  · intro sn s _
    cases s <;> simp

/-- Witness for the amended C1 at a concrete input: on a fresh repository,
dpc.enrolled takes SN1 from PROVISIONING to ACTIVE. -/
theorem C1_transition_totality_witness :
    (handle_event 0 "cmd-w" exampleEnroll exampleState).2 =
      .transitioned "SN1" .PROVISIONING .ACTIVE .DPC_ENROLLED := by
  have h := C1_transition_totality 0 "cmd-w" exampleEnroll exampleState
    (by decide) (by decide)
  exact (h.1 DeviceState.ACTIVE).mpr (Or.inl (by decide))

/-- Claim C4: only transitions into SOFT_LOCKED or HARD_LOCKED touch the
breaker; record_lock appends the current time, drops timestamps outside the
window, and trips OPEN exactly when the retained count reaches the
threshold (the tripping lock is itself recorded and its transition still
commits); allow_lock returns false iff the state after a possible
auto-reset is OPEN; and once more than cooldown_seconds have elapsed past
tripped_at (with a positive cooldown) the next observation of the state
reports CLOSED with the timestamp list cleared. -/
theorem C4_breaker_semantics :
    (∀ (now : ℚ) (fid : String) (p : EventPayload) (st : ServerState) (t : DeviceState),
      ¬ (txnTruthy p.transaction_id = true ∧ p.transaction_id.getD "" ∈ st.processed_txns) →
      decideNewState (currentStateOf st p.serial_number) p.event_type = some t →
      ¬ (t = .SOFT_LOCKED ∨ t = .HARD_LOCKED) →
      (handle_event now fid p st).1.breaker = st.breaker)
  ∧ (∀ (now : ℚ) (cb : CircuitBreaker),
      (record_lock now cb).lock_timestamps =
        (cb.lock_timestamps ++ [now]).filter
          (fun x => decide (now - cb.window_seconds < x)))
  ∧ (∀ (now : ℚ) (cb : CircuitBreaker),
      ((record_lock now cb).state = .OPEN ↔
        (cb.state = .OPEN ∨ cb.max_locks_in_window ≤
          ((cb.lock_timestamps ++ [now]).filter
            (fun x => decide (now - cb.window_seconds < x))).length)))
  ∧ (∀ (now : ℚ) (cb : CircuitBreaker),
      cb.max_locks_in_window ≤
          ((cb.lock_timestamps ++ [now]).filter
            (fun x => decide (now - cb.window_seconds < x))).length →
      0 < cb.window_seconds →
      (record_lock now cb).state = .OPEN ∧ (record_lock now cb).tripped_at = some now
        ∧ now ∈ (record_lock now cb).lock_timestamps)
  ∧ (∀ (now : ℚ) (fid : String) (p : EventPayload) (st : ServerState) (t : DeviceState),
      ¬ (txnTruthy p.transaction_id = true ∧ p.transaction_id.getD "" ∈ st.processed_txns) →
      decideNewState (currentStateOf st p.serial_number) p.event_type = some t →
      (allow_lock now st.breaker).2 = true →
      (handle_event now fid p st).2 =
        .transitioned p.serial_number (currentStateOf st p.serial_number) t p.event_type)
  ∧ (∀ (now : ℚ) (cb : CircuitBreaker),
      ((allow_lock now cb).2 = false ↔ (maybe_auto_reset now cb).state = .OPEN))
  ∧ (∀ (now ta : ℚ) (cb : CircuitBreaker),
      cb.state = .OPEN → cb.tripped_at = some ta → 0 < cb.cooldown_seconds →
      cb.cooldown_seconds < now - ta →
      (state_property now cb).2 = .CLOSED
        ∧ (state_property now cb).1.lock_timestamps = []) := by
  refine ⟨?_, ?_, ?_, ?_, ?_, ?_, ?_⟩
  · intro now fid p st t hdup hds hnl
    rw [handle_event_commit_nolock now fid p st t hdup hds hnl]
    rfl
  · intro now cb
    simp only [record_lock]
    split <;> simp [trip]
  · intro now cb
    by_cases h : cb.max_locks_in_window ≤
        ((cb.lock_timestamps ++ [now]).filter
          (fun x => decide (now - cb.window_seconds < x))).length
    · have h2 : cb.max_locks_in_window ≤
          ((cb.lock_timestamps.filter (fun x => decide (now - cb.window_seconds < x))).length
            + (List.filter (fun x => decide (now - cb.window_seconds < x)) [now]).length) := by
        simpa using h
      simp [record_lock, trip, h, h2]
    · have h2 : ¬ cb.max_locks_in_window ≤
          ((cb.lock_timestamps.filter (fun x => decide (now - cb.window_seconds < x))).length
            + (List.filter (fun x => decide (now - cb.window_seconds < x)) [now]).length) := by
        simpa using h
      simp [record_lock, trip, h, h2]
  · intro now cb h hw
    have h2 : cb.max_locks_in_window ≤
        ((cb.lock_timestamps.filter (fun x => decide (now - cb.window_seconds < x))).length
          + (List.filter (fun x => decide (now - cb.window_seconds < x)) [now]).length) := by
      simpa using h
    refine ⟨?_, ?_, ?_⟩
    · simp [record_lock, trip, h2]
    · simp [record_lock, trip, h2]
    · simp only [record_lock]
      split <;>
        simp [trip, List.mem_filter, sub_lt_self now hw]
  · intro now fid p st t hdup hds hallow
    by_cases hl : t = .SOFT_LOCKED ∨ t = .HARD_LOCKED
    · rw [handle_event_commit_lock now fid p st t hdup hds hl hallow,
        commitTransition_snd]
    · rw [handle_event_commit_nolock now fid p st t hdup hds hl,
        commitTransition_snd]
  · intro now cb
    by_cases h : (maybe_auto_reset now cb).state = .OPEN
    · simp [allow_lock, h]
    · simp [allow_lock, h]
  · intro now ta cb hopen hta hc helapsed
    simp [state_property, maybe_auto_reset, hta, hopen, hc, helapsed, reset]

/-- Witness for C4 at concrete inputs: one instance of each hypothesis-laden
conjunct. Enrollment does not touch the breaker; a breaker with threshold 1
trips on, records and timestamps its first lock; the tripping lock's
transition still commits behind a closed breaker; and an OPEN breaker whose
cooldown has elapsed reports CLOSED with cleared timestamps. -/
theorem C4_breaker_semantics_witness :
    (handle_event 0 "cmd-w" exampleEnroll exampleState).1.breaker = exampleState.breaker
  ∧ ((record_lock 0 exampleTripBreaker).state = .OPEN
      ∧ (record_lock 0 exampleTripBreaker).tripped_at = some 0
      ∧ (0 : ℚ) ∈ (record_lock 0 exampleTripBreaker).lock_timestamps)
  ∧ (handle_event 1 "cmd-w" exampleLockEvent exampleGraceState).2 =
      .transitioned "D1" .GRACE_PERIOD .SOFT_LOCKED .GRACE_EXPIRED
  ∧ ((state_property 700 exampleOpenBreaker).2 = .CLOSED
      ∧ (state_property 700 exampleOpenBreaker).1.lock_timestamps = []) := by
  obtain ⟨h1, h2, h3, h4, h5, h6, h7⟩ := C4_breaker_semantics
  refine ⟨?_, ?_, ?_, ?_⟩
  · exact h1 0 "cmd-w" exampleEnroll exampleState .ACTIVE (by decide) (by decide)
      (by decide)
  · exact h4 0 exampleTripBreaker
      (by simp [exampleTripBreaker]) (by norm_num [exampleTripBreaker])
  · exact h5 1 "cmd-w" exampleLockEvent exampleGraceState .SOFT_LOCKED (by decide)
      (by decide) (by decide)
  · exact h7 700 0 exampleOpenBreaker (by decide) (by decide)
      (by norm_num [exampleOpenBreaker]) (by norm_num [exampleOpenBreaker])

/-- The number of devices in a locked state equals the number of entries
whose state differs after the emergency update. -/
theorem emergency_changed_count (l : List (String × DeviceState)) :
    (l.filter (fun p => decide (p.2 ∈ lockedStates))).length =
      ((l.zip (l.map (fun p => (p.1, emergencyStateUpdate p.2)))).filter
        (fun q => decide (¬ q.1.2 = q.2.2))).length := by
  induction l with
  | nil => simp
  | cons hd tl ih =>
      obtain ⟨k, s⟩ := hd
      cases s <;>
        simp [List.filter, List.zip, emergencyStateUpdate, lockedStates] at ih ⊢ <;>
        omega

/-- Claim C5: after emergency_unlock(reason), every device recorded in
SOFT_LOCKED, HARD_LOCKED or SUSPENDED is ACTIVE with exactly one new audit
record (event admin.reinstate, actor "emergency:<reason>"); devices in any
other recorded state keep their state and audit trail; the breaker is
CLOSED; no command is enqueued; and the returned unlocked count equals the
number of devices whose state changed. -/
theorem C5_emergency_unlock (reason : String) (now : ℚ) (st : ServerState)
    (hn : (st.devices.map Prod.fst).Nodup) :
    (∀ sn s, dictGet st.devices sn = some s → s ∈ lockedStates →
        dictGet (emergency_unlock reason now st).1.devices sn = some .ACTIVE
      ∧ (emergency_unlock reason now st).1.audit_log.filter
            (fun r => decide (r.serial_number = sn)) =
          st.audit_log.filter (fun r => decide (r.serial_number = sn)) ++
            [{ serial_number := sn, from_state := s, to_state := .ACTIVE,
               event := .ADMIN_REINSTATE, actor := "emergency:" ++ reason,
               timestamp := now, transaction_id := none }])
  ∧ (∀ sn s, dictGet st.devices sn = some s → s ∉ lockedStates →
        dictGet (emergency_unlock reason now st).1.devices sn = some s
      ∧ (emergency_unlock reason now st).1.audit_log.filter
            (fun r => decide (r.serial_number = sn)) =
          st.audit_log.filter (fun r => decide (r.serial_number = sn)))
  ∧ (emergency_unlock reason now st).1.breaker.state = .CLOSED
  ∧ (emergency_unlock reason now st).1.command_queue = st.command_queue
  ∧ (emergency_unlock reason now st).1.processed_txns = st.processed_txns
  ∧ (emergency_unlock reason now st).2.length =
      ((st.devices.zip (emergency_unlock reason now st).1.devices).filter
        (fun q => decide (¬ q.1.2 = q.2.2))).length := by
  have haudit : ∀ sn s, dictGet st.devices sn = some s →
      (emergency_unlock reason now st).1.audit_log.filter
          (fun r => decide (r.serial_number = sn)) =
        st.audit_log.filter (fun r => decide (r.serial_number = sn)) ++
          (if s ∈ lockedStates then
            [{ serial_number := sn, from_state := s, to_state := .ACTIVE,
               event := .ADMIN_REINSTATE, actor := "emergency:" ++ reason,
               timestamp := now, transaction_id := none }]
          else []) := by
    intro sn s hget
    show (st.audit_log ++ _).filter _ = _
    rw [List.filter_append]
    congr 1
    rw [filter_map_of_comp]
    have hcomm : (st.devices.filter (fun p => decide (p.2 ∈ lockedStates))).filter
        (fun p => decide (p.1 = sn)) =
        ((st.devices.filter (fun p => decide (p.1 = sn))).filter
          (fun p => decide (p.2 ∈ lockedStates))) := by
      exact filter_filter_comm _ _ _
    simp only
    rw [hcomm, filter_key_of_nodup st.devices sn s hn hget]
    by_cases h : s ∈ lockedStates
    · simp [List.filter, h]
    · simp [List.filter, h]
  refine ⟨?_, ?_, rfl, rfl, rfl, ?_⟩
  · intro sn s hget hmem
    constructor
    · show dictGet (st.devices.map (fun p => (p.1, emergencyStateUpdate p.2))) sn = _
      rw [dictGet_map_val, hget]
      simp [emergencyStateUpdate, hmem]
    · rw [haudit sn s hget, if_pos hmem]
  · intro sn s hget hmem
    constructor
    · show dictGet (st.devices.map (fun p => (p.1, emergencyStateUpdate p.2))) sn = _
      rw [dictGet_map_val, hget]
      simp [emergencyStateUpdate, hmem]
    · rw [haudit sn s hget, if_neg hmem]
      simp
  · show (List.map _ (st.devices.filter _)).length = _
    rw [List.length_map]
    exact emergency_changed_count st.devices

/-- Witness for C5 at a concrete input: in `exampleFleet`, the hard-locked
device A becomes ACTIVE with one emergency audit record, the stolen device
D is untouched with no audit record, the breaker closes, and the unlocked
count matches the two changed devices. -/
theorem C5_emergency_unlock_witness :
    dictGet (emergency_unlock "drill" 5 exampleFleet).1.devices "A" = some .ACTIVE
  ∧ (emergency_unlock "drill" 5 exampleFleet).1.audit_log.filter
        (fun r => decide (r.serial_number = "A")) =
      exampleFleet.audit_log.filter (fun r => decide (r.serial_number = "A")) ++
        [{ serial_number := "A", from_state := .HARD_LOCKED, to_state := .ACTIVE,
           event := .ADMIN_REINSTATE, actor := "emergency:" ++ "drill",
           timestamp := 5, transaction_id := none }]
  ∧ dictGet (emergency_unlock "drill" 5 exampleFleet).1.devices "D" =
      some .STOLEN_LOCKED
  ∧ (emergency_unlock "drill" 5 exampleFleet).1.breaker.state = .CLOSED
  ∧ (emergency_unlock "drill" 5 exampleFleet).2.length =
      ((exampleFleet.devices.zip (emergency_unlock "drill" 5 exampleFleet).1.devices).filter
        (fun q => decide (¬ q.1.2 = q.2.2))).length := by
  have h := C5_emergency_unlock "drill" 5 exampleFleet (by simp [exampleFleet])
  have hA := h.1 "A" .HARD_LOCKED (by decide) (by decide)
  have hD := h.2.1 "D" .STOLEN_LOCKED (by decide) (by decide)
  exact ⟨hA.1, hA.2, hD.1, h.2.2.1, h.2.2.2.2.2⟩

/-- Counterexample for C6 as frozen: the DECOMMISSIONED policy template has
an empty restrictions mapping, not the three-key mapping the claim asserts
for every state. -/
theorem C6_counterexample :
    (POLICY_TEMPLATES .DECOMMISSIONED).restrictions.map Prod.fst = ([] : List String)
  ∧ ¬ ((POLICY_TEMPLATES .DECOMMISSIONED).restrictions.map Prod.fst =
        ["no_usb", "no_camera", "no_install_apps"]) := by
  constructor <;> decide

/-- Claim C6 (amended): for every DeviceState except DECOMMISSIONED the
policy template's restrictions mapping has exactly the keys no_usb,
no_camera, no_install_apps (with boolean values), a lock_screen_message
string and a protected_packages list; DECOMMISSIONED's restrictions mapping
is empty; and get_policy fails with NotFound iff the serial has no recorded
state, otherwise returning the template of the current state. -/
theorem C6_policy_templates (s : DeviceState) (serial : String) (st : ServerState) :
    (s ≠ .DECOMMISSIONED →
      (POLICY_TEMPLATES s).restrictions.map Prod.fst =
        ["no_usb", "no_camera", "no_install_apps"])
  ∧ (POLICY_TEMPLATES .DECOMMISSIONED).restrictions = []
  ∧ (get_policy serial st = none ↔ dictGet st.devices serial = none)
  ∧ (∀ s2, dictGet st.devices serial = some s2 →
      get_policy serial st = some
        { serial_number := serial, device_state := s2,
          restrictions := (POLICY_TEMPLATES s2).restrictions,
          lock_screen_message := (POLICY_TEMPLATES s2).lock_screen_message,
          protected_packages := (POLICY_TEMPLATES s2).protected_packages }) := by
  refine ⟨?_, rfl, ?_, ?_⟩
  · intro h
    cases s <;> first | rfl | exact absurd rfl h
  · cases hg : dictGet st.devices serial with
    | none => simp [get_policy, hg]
    | some s2 => simp [get_policy, hg]
  · intro s2 h2
    simp [get_policy, h2]

/-- Witness for the amended C6 at a concrete input: the ACTIVE template has
the three restriction keys, and get_policy on the recorded device D1
returns the ACTIVE template. -/
theorem C6_policy_templates_witness :
    (POLICY_TEMPLATES .ACTIVE).restrictions.map Prod.fst =
        ["no_usb", "no_camera", "no_install_apps"]
  ∧ get_policy "D1" exampleProcessedState = some
      { serial_number := "D1", device_state := .ACTIVE,
        restrictions := (POLICY_TEMPLATES .ACTIVE).restrictions,
        lock_screen_message := (POLICY_TEMPLATES .ACTIVE).lock_screen_message,
        protected_packages := (POLICY_TEMPLATES .ACTIVE).protected_packages } := by
  have h := C6_policy_templates .ACTIVE "D1" exampleProcessedState
  exact ⟨h.1 (by decide), h.2.2.2 .ACTIVE (by decide)⟩

/-- Claim C8: evaluate_and_advance returns no_active_rollout and changes
nothing when inactive; rolls back citing the error rate whenever it is at
or above threshold (taking precedence over the heartbeat check); otherwise
rolls back citing heartbeat loss at or above its threshold; otherwise
promotes to the next stage while below the last index; otherwise completes
GA; and a rolled-back rollout stays inactive on every later evaluation. -/
theorem C8_canary_evaluation (c : CanaryRollout) (er hb er2 hb2 : ℚ) :
    (c.active = false → evaluate_and_advance er hb c = (c, .noActiveRollout))
  ∧ (c.active = true → c.error_rate_threshold ≤ er →
      evaluate_and_advance er hb c =
        ({ c with active := false },
         .rolledBack c.version
           (c.stages.getD c.current_stage_index
             { name := "", percent := 0, observation_hours := 0 }).name
           (.errorRate er c.error_rate_threshold)))
  ∧ (c.active = true → er < c.error_rate_threshold →
      c.heartbeat_loss_threshold ≤ hb →
      evaluate_and_advance er hb c =
        ({ c with active := false },
         .rolledBack c.version
           (c.stages.getD c.current_stage_index
             { name := "", percent := 0, observation_hours := 0 }).name
           (.heartbeatLoss hb c.heartbeat_loss_threshold)))
  ∧ (c.active = true → er < c.error_rate_threshold →
      hb < c.heartbeat_loss_threshold →
      c.current_stage_index < c.stages.length - 1 →
      evaluate_and_advance er hb c =
        ({ c with current_stage_index := c.current_stage_index + 1 },
         .promoted c.version
           (c.stages.getD (c.current_stage_index + 1)
             { name := "", percent := 0, observation_hours := 0 }).name
           (c.stages.getD (c.current_stage_index + 1)
             { name := "", percent := 0, observation_hours := 0 }).percent))
  ∧ (c.active = true → er < c.error_rate_threshold →
      hb < c.heartbeat_loss_threshold →
      ¬ c.current_stage_index < c.stages.length - 1 →
      evaluate_and_advance er hb c = ({ c with active := false }, .gaComplete c.version))
  ∧ (c.active = true → c.error_rate_threshold ≤ er →
      evaluate_and_advance er2 hb2 (evaluate_and_advance er hb c).1 =
        ((evaluate_and_advance er hb c).1, .noActiveRollout)) := by
  refine ⟨?_, ?_, ?_, ?_, ?_, ?_⟩
  · intro h
    simp [evaluate_and_advance, h]
  · intro h h2
    simp [evaluate_and_advance, h, h2]
  · intro h h2 h3
    simp [evaluate_and_advance, h, h2, h3, not_le.mpr h2]
  · intro h h2 h3 h4
    simp [evaluate_and_advance, h, not_le.mpr h2, not_le.mpr h3, h4]
  · intro h h2 h3 h4
    simp [evaluate_and_advance, h, not_le.mpr h2, not_le.mpr h3, h4]
  · intro h h2
    have hr := by
      show evaluate_and_advance er hb c =
        ({ c with active := false },
         .rolledBack c.version
           (c.stages.getD c.current_stage_index
             { name := "", percent := 0, observation_hours := 0 }).name
           (.errorRate er c.error_rate_threshold))
      simp [evaluate_and_advance, h, h2]
    rw [hr]
    simp [evaluate_and_advance]

/-- Witness for C8 at a concrete input: starting a rollout and evaluating
with a 5 percent error rate rolls it back at CANARY citing the error rate,
and every later evaluation reports no active rollout. -/
theorem C8_canary_evaluation_witness :
    evaluate_and_advance (5 / 100) (1 / 100) (start_rollout "2.0.0" {}).1 =
      ({ (start_rollout "2.0.0" {}).1 with active := false },
       .rolledBack "2.0.0" "CANARY" (.errorRate (5 / 100) (2 / 100)))
  ∧ evaluate_and_advance 0 0
        (evaluate_and_advance (5 / 100) (1 / 100) (start_rollout "2.0.0" {}).1).1 =
      ((evaluate_and_advance (5 / 100) (1 / 100) (start_rollout "2.0.0" {}).1).1,
       .noActiveRollout) := by
  have h := C8_canary_evaluation (start_rollout "2.0.0" {}).1 (5 / 100) (1 / 100) 0 0
  constructor
  · have h2 := h.2.1 rfl (by norm_num [start_rollout])
    simpa [start_rollout] using h2
  · exact h.2.2.2.2.2 rfl (by norm_num [start_rollout])

/-- Filtering for entries whose key is k, after all such entries have been
filtered out, yields nothing (generalized over the retained predicate). -/
theorem filter_pred_of_filter_ne_nil {α : Type} (f : α → String) (k : String)
    (p : α → Bool) (hp : ∀ a, p a = true → f a = k) (l : List α) :
    (l.filter (fun a => decide (¬ f a = k))).filter p = [] := by
  induction l with
  | nil => rfl
  | cons hd tl ih =>
      rw [List.filter_cons]
      by_cases h : f hd = k
      · rw [if_neg (by simp [h])]
        exact ih
      · have hph : ¬ p hd = true := by
          intro hph
          exact h (hp hd hph)
        rw [if_pos (by simp [h]), List.filter_cons, if_neg hph]
        exact ih

/-- Filtering for entries of another key commutes with removing key k
(generalized over the retained predicate). -/
theorem filter_pred_of_filter_ne {α : Type} (f : α → String) (k : String)
    (p : α → Bool) (hp : ∀ a, p a = true → ¬ f a = k) (l : List α) :
    (l.filter (fun a => decide (¬ f a = k))).filter p = l.filter p := by
  induction l with
  | nil => rfl
  | cons hd tl ih =>
      rw [List.filter_cons]
      by_cases h : f hd = k
      · have hph : ¬ p hd = true := by
          intro hph
          exact hp hd hph h
        rw [if_neg (by simp [h])]
        conv_rhs => rw [List.filter_cons]
        rw [if_neg hph]
        exact ih
      · rw [if_pos (by simp [h]), List.filter_cons]
        conv_rhs => rw [List.filter_cons]
        by_cases hph : p hd = true
        · rw [if_pos hph, if_pos hph, ih]
        · rw [if_neg hph, if_neg hph]
          exact ih

/-- Claim C7: delete_device fails with NotFound iff the serial has no
recorded state; otherwise it removes the device's state, audit records and
command entries, returns the two removal counts, leaves the processed
transactions untouched, and afterwards get_policy is NotFound, get_audit
and get_commands are empty, while every other serial's state, audit trail
and pending commands are unchanged. -/
theorem C7_delete_device (serial : String) (st : ServerState)
    (hn : (st.devices.map Prod.fst).Nodup) :
    (delete_device serial st = none ↔ dictGet st.devices serial = none)
  ∧ (∀ st2 ra rc, delete_device serial st = some (st2, ra, rc) →
        ra = (st.audit_log.filter (fun r => decide (r.serial_number = serial))).length
      ∧ rc = (st.command_queue.filter
            (fun c => decide (c.serial_number = serial))).length
      ∧ get_policy serial st2 = none
      ∧ get_audit serial st2 = []
      ∧ get_commands serial st2 = []
      ∧ st2.processed_txns = st.processed_txns
      ∧ (∀ sn2, sn2 ≠ serial →
            dictGet st2.devices sn2 = dictGet st.devices sn2
          ∧ get_audit sn2 st2 = get_audit sn2 st
          ∧ get_commands sn2 st2 = get_commands sn2 st)) := by
  constructor
  · cases hg : dictGet st.devices serial with
    | none => simp [delete_device, hg]
    | some s => simp [delete_device, hg]
  · intro st2 ra rc hdel
    cases hg : dictGet st.devices serial with
    | none => rw [delete_device, hg] at hdel; simp at hdel
    | some s =>
        rw [delete_device, hg] at hdel
        simp only [Option.some.injEq, Prod.mk.injEq] at hdel
        obtain ⟨hst2, hra, hrc⟩ := hdel
        subst hst2
        refine ⟨hra.symm, hrc.symm, ?_, ?_, ?_, rfl, ?_⟩
        · have : dictGet (dictDel st.devices serial) serial = none :=
            dictGet_dictDel_self st.devices serial hn
          simp [get_policy, this]
        · exact filter_pred_of_filter_ne_nil (fun r => r.serial_number) serial
            (fun r => decide (r.serial_number = serial))
            (fun a ha => by simpa using ha) st.audit_log
        · exact filter_pred_of_filter_ne_nil (fun c => c.serial_number) serial
            (fun c => decide (c.serial_number = serial) && !c.acknowledged)
            (fun a ha => by
              simp only [Bool.and_eq_true, decide_eq_true_eq] at ha
              exact ha.1) st.command_queue
        · intro sn2 hne
          refine ⟨dictGet_dictDel_ne st.devices serial sn2 hne, ?_, ?_⟩
          · exact filter_pred_of_filter_ne (fun r => r.serial_number) serial
              (fun r => decide (r.serial_number = sn2))
              (fun a ha => by
                simp only [decide_eq_true_eq] at ha
                show ¬ a.serial_number = serial
                rw [ha]; exact hne) st.audit_log
          · exact filter_pred_of_filter_ne (fun c => c.serial_number) serial
              (fun c => decide (c.serial_number = sn2) && !c.acknowledged)
              (fun a ha => by
                simp only [Bool.and_eq_true, decide_eq_true_eq] at ha
                show ¬ a.serial_number = serial
                rw [ha.1]; exact hne) st.command_queue

/-- Witness for C7 at a concrete input: deleting device A from
`exampleAudited` removes its state, audit record and command while leaving
device B intact. -/
theorem C7_delete_device_witness :
    get_policy "A" exampleDeleted = none
  ∧ get_audit "A" exampleDeleted = []
  ∧ get_commands "A" exampleDeleted = []
  ∧ exampleDeleted.processed_txns = exampleAudited.processed_txns
  ∧ dictGet exampleDeleted.devices "B" = dictGet exampleAudited.devices "B"
  ∧ get_audit "B" exampleDeleted = get_audit "B" exampleAudited
  ∧ (1 : ℕ) = (exampleAudited.audit_log.filter
      (fun r => decide (r.serial_number = "A"))).length := by
  have h := C7_delete_device "A" exampleAudited (by simp [exampleAudited])
  have hdel : delete_device "A" exampleAudited = some (exampleDeleted, 1, 1) := by
    simp [delete_device, dictGet, dictDel, exampleAudited, exampleDeleted,
      exampleRecordA, exampleRecordB, exampleCommandA, List.filter]
  have h2 := h.2 exampleDeleted 1 1 hdel
  have hB := h2.2.2.2.2.2.2 "B" (by decide)
  exact ⟨h2.2.2.1, h2.2.2.2.1, h2.2.2.2.2.1, h2.2.2.2.2.2.1, hB.1, hB.2.1, h2.1⟩

end DeviceFinance
